import Mathlib

/-!
Shallow embedding of `src/audio_checker.py` (class `AudioChecker`).

The Python class works on a WAV container opened with the standard `wave`
module.  We embed the part of the pipeline that lives in this repository:
the constructor's extension check, the unpacking of the raw frame bytes
(`struct.unpack('<' + 'h' * (nframes * nchannels), raw)`), the NumPy
reshape that de-interleaves multi-channel data, and the `analyze` /
`plot_waveform` methods.  File access itself (`wave.open`, `readframes`)
is external library code; a container that was successfully opened and
read is modelled by the `WavFile` record holding its header fields and
its raw frame bytes.  Python exceptions are modelled by the `Err` type
and functions that can raise return `Except Err _`.
-/

deriving instance DecidableEq for Except

namespace AudioChecker

/-- Errors a session can raise.  Each constructor is tagged with the Python
exception that `audio_checker.py` actually raises in that situation. -/
inductive Err where
  /-- Python ValueError raised by the constructor for an extension other
  than .wav or .mp3 (line 20). -/
  | unsupportedFormat
  /-- Python wave.Error raised by wave.open for an unreadable, invalid or
  empty container (external library code, line 44). -/
  | formatError
  /-- Python struct.error raised by struct.unpack when the raw byte length
  does not equal the size of the format string built from
  nframes * nchannels (line 56). -/
  | decodeError
  /-- Python ZeroDivisionError raised by frames / framerate when the frame
  rate is 0 (line 73). -/
  | invalidFormat
  /-- Python RuntimeError raised by analyze / plot_waveform when
  self.signal is None (lines 71 and 93). -/
  | notLoaded
  /-- Python ValueError raised by np.max on a zero-size array (line 74). -/
  | emptyReduction
  /-- Python AttributeError, only possible in states unreachable through
  the public flow (signal assigned while params is not). -/
  | attributeFault
  /-- Python subprocess.CalledProcessError raised when the ffmpeg
  transcode exits non-zero (line 38, check=True). -/
  | transcodeFailed
  deriving DecidableEq, Repr

/-- The tuple self.params = wf.getparams(): (nchannels, sampwidth,
framerate, nframes); comptype / compname are never used by the code. -/
structure Params where
  nchannels : Nat
  sampwidth : Nat
  framerate : Nat
  nframes : Nat
  deriving DecidableEq, Repr

/-- A WAV container that wave.open succeeded on: header fields plus the
raw frame bytes returned by wf.readframes(nframes).  Each byte is a Nat
below 256.  For a well-formed container the wave module guarantees
raw.length = nframes * nchannels * sampwidth. -/
structure WavFile where
  nchannels : Nat
  sampwidth : Nat
  framerate : Nat
  nframes : Nat
  raw : List Nat
  deriving DecidableEq, Repr

/-- The mutable state of an AudioChecker object: filepath plus the three
fields set to None in the constructor and filled by load_wav.  The
decoded signal is kept as the flat sample list; the NumPy reshape for
nchannels > 1 is pure re-indexing and is modelled by sampleAt / frameOf /
channelTrace below. -/
structure Checker where
  filepath : String
  params : Option Params
  frames : Option Nat
  signal : Option (List Int)
  deriving DecidableEq, Repr

/-- The dict returned by analyze.  Python float results (duration_s,
mean_amplitude) are modelled as exact rationals. -/
structure AnalysisResult where
  channels : Nat
  sample_width : Nat
  framerate : Nat
  frames : Nat
  duration_s : ℚ
  peak_amplitude : Int
  mean_amplitude : ℚ
  deriving DecidableEq, Repr

/-- Index of the last occurrence of a character in a list, or -1 when it
does not occur; the rfind used by os.path.splitext. -/
def lastIdx (c : Char) (s : List Char) : Int :=
  match s.reverse.findIdx? (fun x => x == c) with
  | some i => (s.length : Int) - 1 - (i : Int)
  | none => -1

/-- Extension part of os.path.splitext (posixpath._splitext with sep '/'
and extsep '.'): the suffix from the last dot when that dot lies inside
the basename and at least one character of the basename before it is not
a dot; empty otherwise. -/
def splitextExt (s : List Char) : List Char :=
  let sepIndex := lastIdx '/' s
  let dotIndex := lastIdx '.' s
  if dotIndex > sepIndex then
    if (List.range s.length).any (fun i =>
        decide (sepIndex < (i : Int)) && decide ((i : Int) < dotIndex) &&
        !(s.getD i '.' == '.'))
    then s.drop dotIndex.toNat
    else []
  else []

/-- os.path.splitext(filepath)[1].lower() from line 18 of the source. -/
def pathExtLower (p : String) : List Char :=
  (splitextExt p.data).map Char.toLower

/-- The constructor AudioChecker.__init__ (lines 17-24): rejects any path
whose lowercased extension is neither .wav nor .mp3 with a ValueError,
otherwise stores the path and sets params, frames and signal to None.
It performs no filesystem access: it is a pure function of the path. -/
def init (filepath : String) : Except Err Checker :=
  if pathExtLower filepath = ".wav".data ∨ pathExtLower filepath = ".mp3".data then
    .ok { filepath := filepath, params := none, frames := none, signal := none }
  else
    .error .unsupportedFormat

/-- One signed little-endian 16-bit sample (one struct 'h' code) from two
bytes: low byte first, two's complement. -/
def toInt16 (lo hi : Nat) : Int :=
  let u := lo % 256 + 256 * (hi % 256)
  if u < 32768 then (u : Int) else (u : Int) - 65536

/-- The flat tuple struct.unpack produces: consecutive byte pairs, each
read as one little-endian signed 16-bit integer. -/
def unpackLE16 : List Nat → List Int
  | [] => []
  | [_] => []
  | lo :: hi :: rest => toInt16 lo hi :: unpackLE16 rest

/-- Lines 55-56: struct.unpack('<' + 'h' * (nframes * nchannels), raw).
struct.unpack demands that the buffer length equal the size of the format
string exactly - 2 * (nframes * nchannels) bytes - and raises
struct.error otherwise; it never truncates. -/
def decodeRaw (nframes nchannels : Nat) (raw : List Nat) : Except Err (List Int) :=
  if raw.length = 2 * (nframes * nchannels) then .ok (unpackLE16 raw)
  else .error .decodeError

/-- Element (f, c) of the signal after signal.reshape(-1, nchannels): the
row-major reshape puts flat sample f * nchannels + c at frame f,
channel c. -/
def sampleAt (signal : List Int) (nchannels f c : Nat) : Option Int :=
  signal[f * nchannels + c]?

/-- Row f of the reshaped signal: the nchannels consecutive flat samples
starting at f * nchannels. -/
def frameOf (signal : List Int) (nchannels f : Nat) : List Int :=
  (signal.drop (f * nchannels)).take nchannels

/-- Column c of the reshaped signal (signal[:, c]), as plotted by
plot_waveform for multi-channel data. -/
def channelTrace (signal : List Int) (nchannels c : Nat) : List Int :=
  (List.range (signal.length / nchannels)).map (fun f => signal.getD (f * nchannels + c) 0)

/-- The WAV branch of load_wav (lines 44-62) applied to a container that
wave.open succeeded on: store the header tuple in params, unpack the raw
bytes, store nframes in frames and the decoded samples in signal.  A
struct.error from the unpack propagates out as an exception. -/
def load_wav (c : Checker) (f : WavFile) : Except Err Checker :=
  let p : Params :=
    { nchannels := f.nchannels, sampwidth := f.sampwidth,
      framerate := f.framerate, nframes := f.nframes }
  match decodeRaw f.nframes f.nchannels f.raw with
  | .error e => .error e
  | .ok signal =>
    .ok { c with params := some p, frames := some f.nframes, signal := some signal }

/-- Stage at which the MP3 branch of load_wav exits. -/
inductive Mp3Stage where
  | transcodeFailed
  | readFailed
  | unpackFailed
  | loaded
  deriving DecidableEq, Repr

/-- Control flow of the MP3 branch of load_wav (lines 34-56) with respect
to the temporary WAV file.  The temporary file is created first; then the
ffmpeg transcode runs (an exception propagates if it fails); then the
container is opened and read (an exception propagates if that fails);
only then, lines 48-52, os.remove is attempted with OSError swallowed;
finally struct.unpack runs.  Each stage is abstracted to a flag saying
whether it succeeds; the result is the exit stage paired with whether the
temporary file was removed by the time the function exits. -/
def mp3TempFlow (transcodeOk readOk removeOk unpackOk : Bool) : Mp3Stage × Bool :=
  if transcodeOk = false then (.transcodeFailed, false)
  else if readOk = false then (.readFailed, false)
  else
    let removed := removeOk
    if unpackOk = false then (.unpackFailed, removed)
    else (.loaded, removed)

/-- Maximum of np.abs(signal) over a flat or reshaped array: np.max
raises ValueError on a zero-size array, otherwise folds max over the
absolute values. -/
def npMaxAbs : List Int → Except Err Int
  | [] => .error .emptyReduction
  | x :: xs => .ok (xs.foldl (fun a y => max a (y.natAbs : Int)) (x.natAbs : Int))

/-- Sum of absolute values as a rational; np.mean(np.abs(signal)) is this
divided by the number of samples. -/
def sumAbsQ (s : List Int) : ℚ :=
  s.foldl (fun a y => a + (y.natAbs : ℚ)) 0

/-- AudioChecker.analyze (lines 64-85): RuntimeError when signal is None;
then duration = frames / framerate (ZeroDivisionError when framerate is
0), peak = np.max(np.abs(signal)) (ValueError on an empty signal),
mean = np.mean(np.abs(signal)), assembled into the result dict in source
order. -/
def analyze (c : Checker) : Except Err AnalysisResult :=
  match c.signal with
  | none => .error .notLoaded
  | some s =>
    match c.params, c.frames with
    | some p, some fr =>
      if p.framerate = 0 then .error .invalidFormat
      else
        match npMaxAbs s with
        | .error e => .error e
        | .ok peak =>
          .ok { channels := p.nchannels
                sample_width := p.sampwidth
                framerate := p.framerate
                frames := fr
                duration_s := (fr : ℚ) / (p.framerate : ℚ)
                peak_amplitude := peak
                mean_amplitude := sumAbsQ s / (s.length : ℚ) }
    | _, _ => .error .attributeFault

/-- The image plot_waveform builds, abstracted to the traces drawn:
one trace of the whole signal for mono, the first two channel columns
labelled Left and Right for nchannels > 1. -/
inductive Waveform where
  | mono (trace : List Int)
  | stereo (left right : List Int)
  deriving DecidableEq, Repr

/-- AudioChecker.plot_waveform (lines 87-111): RuntimeError when signal
is None; otherwise plots signal[:, 0] and signal[:, 1] when
nchannels > 1, else the flat signal. -/
def plot_waveform (c : Checker) : Except Err Waveform :=
  match c.signal with
  | none => .error .notLoaded
  | some s =>
    match c.params with
    | some p =>
      if 1 < p.nchannels then
        .ok (.stereo (channelTrace s p.nchannels 0) (channelTrace s p.nchannels 1))
      else .ok (.mono s)
    | none => .error .attributeFault

/-- A checker in the state the constructor leaves it for an accepted path:
params, frames and signal all None. -/
def freshChecker : Checker :=
  { filepath := "input.wav", params := none, frames := none, signal := none }

/-- load_wav followed by analyze on a fresh checker, the composite the
program's main entry runs on a WAV input. -/
def loadAnalyze (f : WavFile) : Except Err AnalysisResult :=
  match load_wav freshChecker f with
  | .error e => .error e
  | .ok c => analyze c

/-! Concrete containers and states used to instantiate the theorems. -/

/-- Mono 16-bit container whose single sample is -32768 (bytes 00 80). -/
def minSampleFile : WavFile :=
  { nchannels := 1, sampwidth := 2, framerate := 44100, nframes := 1, raw := [0, 128] }

/-- Container declaring sample width 1 and zero frames; raw data empty, so it
satisfies the wave-module length invariant. -/
def zeroFrameWidth1File : WavFile :=
  { nchannels := 1, sampwidth := 1, framerate := 44100, nframes := 0, raw := [] }

/-- Mono 8-bit container with one frame: one raw byte. -/
def oneFrameWidth1File : WavFile :=
  { nchannels := 1, sampwidth := 1, framerate := 44100, nframes := 1, raw := [7] }

/-- Mono 16-bit container with zero frames. -/
def emptyMonoFile : WavFile :=
  { nchannels := 1, sampwidth := 2, framerate := 44100, nframes := 0, raw := [] }

/-- Stereo 16-bit container with zero frames. -/
def emptyStereoFile : WavFile :=
  { nchannels := 2, sampwidth := 2, framerate := 44100, nframes := 0, raw := [] }

/-- Mono 16-bit container with the samples 32767 and 0. -/
def peakFile : WavFile :=
  { nchannels := 1, sampwidth := 2, framerate := 44100, nframes := 2, raw := [255, 127, 0, 0] }

/-- The analysis result of peakFile. -/
def peakFileResult : AnalysisResult :=
  { channels := 1, sample_width := 2, framerate := 44100, frames := 2,
    duration_s := 2 / 44100, peak_amplitude := 32767, mean_amplitude := 32767 / 2 }

/-- Mono 16-bit container with the samples 0 and 5. -/
def singleNonzeroFile : WavFile :=
  { nchannels := 1, sampwidth := 2, framerate := 44100, nframes := 2, raw := [0, 0, 5, 0] }

/-- The analysis result of singleNonzeroFile. -/
def singleNonzeroResult : AnalysisResult :=
  { channels := 1, sample_width := 2, framerate := 44100, frames := 2,
    duration_s := 2 / 44100, peak_amplitude := 5, mean_amplitude := 5 / 2 }

/-- Stereo 16-bit container with interleaved samples 1, 2, 3, 4 (two frames). -/
def stereoFile : WavFile :=
  { nchannels := 2, sampwidth := 2, framerate := 8000, nframes := 2,
    raw := [1, 0, 2, 0, 3, 0, 4, 0] }

/-- Mono 16-bit container with one zero sample at 8000 Hz. -/
def tinyFile : WavFile :=
  { nchannels := 1, sampwidth := 2, framerate := 8000, nframes := 1, raw := [0, 0] }

/-- The checker state after load_wav succeeds on tinyFile. -/
def loadedTinyChecker : Checker :=
  { filepath := "input.wav",
    params := some { nchannels := 1, sampwidth := 2, framerate := 8000, nframes := 1 },
    frames := some 1, signal := some [0] }

/-! Helper lemmas about the embedded definitions. -/

theorem toInt16_range (lo hi : Nat) : -32768 ≤ toInt16 lo hi ∧ toInt16 lo hi ≤ 32767 := by
  have h1 : lo % 256 < 256 := Nat.mod_lt _ (by omega)
  have h2 : hi % 256 < 256 := Nat.mod_lt _ (by omega)
  simp only [toInt16]
  split <;> constructor <;> omega

theorem unpackLE16_length : ∀ raw : List Nat, (unpackLE16 raw).length = raw.length / 2
  | [] => by simp [unpackLE16]
  | [_] => by simp [unpackLE16]
  | _ :: _ :: rest => by
      have ih := unpackLE16_length rest
      simp only [unpackLE16, List.length_cons, ih]
      omega

theorem unpackLE16_mem : ∀ (raw : List Nat) (x : Int),
    x ∈ unpackLE16 raw → -32768 ≤ x ∧ x ≤ 32767
  | [], x => by simp [unpackLE16]
  | [_], x => by simp [unpackLE16]
  | a :: b :: rest, x => by
      intro hx
      rcases List.mem_cons.mp hx with rfl | hx
      · exact toInt16_range a b
      · exact unpackLE16_mem rest x hx

theorem unpackLE16_get : ∀ (raw : List Nat) (i lo hi : Nat),
    raw[2 * i]? = some lo → raw[2 * i + 1]? = some hi →
    (unpackLE16 raw)[i]? = some (toInt16 lo hi)
  | [], i, lo, hi => by simp
  | [x], i, lo, hi => by
      intro _ h2
      have hlen : ([x] : List Nat).length ≤ 2 * i + 1 := by
        simp only [List.length_cons, List.length_nil]
        omega
      rw [List.getElem?_eq_none hlen] at h2
      exact absurd h2 (by simp)
  | a :: b :: rest, i, lo, hi => by
      cases i with
      | zero =>
          intro h1 h2
          simp at h1 h2
          simp [unpackLE16, h1, h2]
      | succ j =>
          intro h1 h2
          have e1 : 2 * (j + 1) = 2 * j + 1 + 1 := by ring
          have e2 : 2 * (j + 1) + 1 = 2 * j + 1 + 1 + 1 := by ring
          rw [e1] at h1
          rw [e2] at h2
          simp only [List.getElem?_cons_succ] at h1 h2
          simpa [unpackLE16] using unpackLE16_get rest j lo hi h1 h2

theorem decodeRaw_eq_ok (n c : Nat) (raw : List Nat) (h : raw.length = 2 * (n * c)) :
    decodeRaw n c raw = .ok (unpackLE16 raw) := by
  simp [decodeRaw, h]

theorem decodeRaw_ok_elim (n c : Nat) (raw : List Nat) (s : List Int)
    (h : decodeRaw n c raw = .ok s) :
    raw.length = 2 * (n * c) ∧ s = unpackLE16 raw := by
  unfold decodeRaw at h
  split at h
  · exact ⟨by assumption, by simpa using h.symm⟩
  · simp at h

theorem foldl_max_le_init : ∀ (xs : List Int) (a : Int),
    a ≤ xs.foldl (fun b y => max b (y.natAbs : Int)) a
  | [], a => le_refl a
  | x :: xs, a => le_trans (le_max_left a (x.natAbs : Int)) (foldl_max_le_init xs _)

theorem foldl_max_le_mem : ∀ (xs : List Int) (a x : Int), x ∈ xs →
    (x.natAbs : Int) ≤ xs.foldl (fun b y => max b (y.natAbs : Int)) a
  | [], a, x => by simp
  | y :: xs, a, x => by
      intro hx
      rcases List.mem_cons.mp hx with rfl | hx
      · exact le_trans (le_max_right a (x.natAbs : Int)) (foldl_max_le_init xs _)
      · exact foldl_max_le_mem xs _ x hx

theorem foldl_max_cases : ∀ (xs : List Int) (a : Int),
    xs.foldl (fun b y => max b (y.natAbs : Int)) a = a ∨
    ∃ x ∈ xs, xs.foldl (fun b y => max b (y.natAbs : Int)) a = (x.natAbs : Int)
  | [], a => Or.inl rfl
  | x :: xs, a => by
      rcases foldl_max_cases xs (max a (x.natAbs : Int)) with h | ⟨y, hy, h⟩
      · rcases max_choice a ((x.natAbs : Int)) with hm | hm
        · left
          simp only [List.foldl_cons]
          rw [h, hm]
        · right
          refine ⟨x, List.mem_cons_self x xs, ?_⟩
          simp only [List.foldl_cons]
          rw [h, hm]
      · right
        refine ⟨y, List.mem_cons_of_mem x hy, ?_⟩
        simp only [List.foldl_cons]
        rw [h]

theorem npMaxAbs_spec (s : List Int) (v : Int) (h : npMaxAbs s = .ok v) :
    (∀ x ∈ s, (x.natAbs : Int) ≤ v) ∧ ∃ x ∈ s, (x.natAbs : Int) = v := by
  cases s with
  | nil => simp [npMaxAbs] at h
  | cons x xs =>
      have hv : xs.foldl (fun b y => max b (y.natAbs : Int)) (x.natAbs : Int) = v := by
        simpa [npMaxAbs] using h
      constructor
      · intro y hy
        rcases List.mem_cons.mp hy with rfl | hy
        · rw [← hv]; exact foldl_max_le_init xs _
        · rw [← hv]; exact foldl_max_le_mem xs _ y hy
      · rcases foldl_max_cases xs ((x.natAbs : Int)) with h0 | ⟨y, hy, h0⟩
        · exact ⟨x, List.mem_cons_self x xs, by rw [← hv, h0]⟩
        · exact ⟨y, List.mem_cons_of_mem x hy, by rw [← hv, h0]⟩

theorem npMaxAbs_ok_of_ne_nil (s : List Int) (h : s ≠ []) : ∃ v, npMaxAbs s = .ok v := by
  cases s with
  | nil => exact absurd rfl h
  | cons x xs => exact ⟨_, rfl⟩

theorem foldl_add_shift : ∀ (s : List Int) (a : ℚ),
    s.foldl (fun b y => b + (y.natAbs : ℚ)) a = a + sumAbsQ s
  | [], a => by simp [sumAbsQ]
  | x :: xs, a => by
      have h1 := foldl_add_shift xs (a + ((x.natAbs : ℚ)))
      have h2 := foldl_add_shift xs ((0 : ℚ) + ((x.natAbs : ℚ)))
      simp only [sumAbsQ, List.foldl_cons] at *
      rw [h1, h2]
      ring

theorem sumAbsQ_cons (x : Int) (xs : List Int) :
    sumAbsQ (x :: xs) = (x.natAbs : ℚ) + sumAbsQ xs := by
  have h := foldl_add_shift xs ((0 : ℚ) + ((x.natAbs : ℚ)))
  simp only [sumAbsQ, List.foldl_cons] at *
  rw [h]
  ring

theorem sumAbsQ_append : ∀ (s1 s2 : List Int), sumAbsQ (s1 ++ s2) = sumAbsQ s1 + sumAbsQ s2
  | [], s2 => by simp [sumAbsQ]
  | x :: xs, s2 => by
      simp only [List.cons_append, sumAbsQ_cons, sumAbsQ_append xs s2]
      ring

theorem sumAbsQ_of_all_zero : ∀ s : List Int, (∀ x ∈ s, x = 0) → sumAbsQ s = 0
  | [], _ => by simp [sumAbsQ]
  | x :: xs, h => by
      have hx : x = 0 := h x (List.mem_cons_self x xs)
      have hxs := sumAbsQ_of_all_zero xs (fun y hy => h y (List.mem_cons_of_mem x hy))
      simp [sumAbsQ_cons, hx, hxs]

theorem loadAnalyze_eq_ok (f : WavFile) (s : List Int) (peak : Int)
    (hd : decodeRaw f.nframes f.nchannels f.raw = .ok s)
    (hfr : f.framerate ≠ 0) (hp : npMaxAbs s = .ok peak) :
    loadAnalyze f = .ok
      { channels := f.nchannels, sample_width := f.sampwidth, framerate := f.framerate,
        frames := f.nframes, duration_s := (f.nframes : ℚ) / (f.framerate : ℚ),
        peak_amplitude := peak, mean_amplitude := sumAbsQ s / (s.length : ℚ) } := by
  simp [loadAnalyze, load_wav, hd, analyze, hfr, hp]

theorem loadAnalyze_ok_elim (f : WavFile) (r : AnalysisResult) (h : loadAnalyze f = .ok r) :
    ∃ s peak, decodeRaw f.nframes f.nchannels f.raw = .ok s ∧
      f.framerate ≠ 0 ∧ npMaxAbs s = .ok peak ∧
      r = { channels := f.nchannels, sample_width := f.sampwidth, framerate := f.framerate,
            frames := f.nframes, duration_s := (f.nframes : ℚ) / (f.framerate : ℚ),
            peak_amplitude := peak, mean_amplitude := sumAbsQ s / (s.length : ℚ) } := by
  cases hd : decodeRaw f.nframes f.nchannels f.raw with
  | error e => simp [loadAnalyze, load_wav, hd] at h
  | ok s =>
      by_cases hfr : f.framerate = 0
      · simp [loadAnalyze, load_wav, hd, analyze, hfr] at h
      · cases hp : npMaxAbs s with
        | error e => simp [loadAnalyze, load_wav, hd, analyze, hfr, hp] at h
        | ok peak =>
            refine ⟨s, peak, rfl, hfr, hp, ?_⟩
            have := loadAnalyze_eq_ok f s peak hd hfr hp
            rw [this] at h
            exact (Except.ok.injEq _ _ ▸ h.symm : _)

theorem load_wav_ok_elim (c : Checker) (f : WavFile) (c1 : Checker)
    (h : load_wav c f = .ok c1) :
    ∃ s, decodeRaw f.nframes f.nchannels f.raw = .ok s ∧
      c1 = Checker.mk c.filepath
        (some (Params.mk f.nchannels f.sampwidth f.framerate f.nframes))
        (some f.nframes) (some s) := by
  unfold load_wav at h
  cases hd : decodeRaw f.nframes f.nchannels f.raw with
  | error e =>
      rw [hd] at h
      exact absurd h (by simp)
  | ok s =>
      rw [hd] at h
      exact ⟨s, rfl, (Except.ok.inj h).symm⟩

theorem npMaxAbs_error_elim (s : List Int) (e : Err) (h : npMaxAbs s = .error e) :
    e = .emptyReduction := by
  cases s with
  | nil =>
      have h0 : (Except.error Err.emptyReduction : Except Err Int) = .error e := h
      exact (Except.error.inj h0).symm
  | cons x xs => simp [npMaxAbs] at h

theorem analyze_loaded_ne_notLoaded (fp : String) (p : Params) (fr : Nat) (s : List Int) :
    analyze { filepath := fp, params := some p, frames := some fr, signal := some s } ≠
      Except.error Err.notLoaded := by
  unfold analyze
  by_cases hfr : p.framerate = 0
  · simp [hfr]
  · simp only [hfr, if_false]
    cases hp : npMaxAbs s with
    | error e =>
        have he := npMaxAbs_error_elim s e hp
        subst he
        simp
    | ok peak => simp

theorem plot_loaded_ne_notLoaded (fp : String) (p : Params) (fr : Nat) (s : List Int) :
    plot_waveform { filepath := fp, params := some p, frames := some fr, signal := some s } ≠
      Except.error Err.notLoaded := by
  unfold plot_waveform
  by_cases hch : 1 < p.nchannels <;> simp [hch]

/-! Theorems for the claims. -/

/-- C1, counterexample: the container whose single decoded sample is -32768
analyzes to peak_amplitude 32768, which lies outside the claimed range
[0, 32767], so the claim as stated fails on buffers containing the 16-bit
minimum value. -/
theorem C1_peak_counterexample :
    (loadAnalyze minSampleFile).map (fun r => r.peak_amplitude) = Except.ok 32768 ∧
    ¬ ((32768 : Int) ≤ 32767) := ⟨rfl, by decide⟩

/-- C1 (amended): for every container that loads and analyzes successfully,
peak_amplitude is in the range [0, 32768] and equals the maximum absolute
decoded sample value: it bounds the absolute value of every decoded sample
and is attained by one of them. -/
theorem C1_peak_is_max_abs (f : WavFile) (r : AnalysisResult)
    (h : loadAnalyze f = .ok r) :
    0 ≤ r.peak_amplitude ∧ r.peak_amplitude ≤ 32768 ∧
    ∃ s, decodeRaw f.nframes f.nchannels f.raw = .ok s ∧
      (∀ x ∈ s, (x.natAbs : Int) ≤ r.peak_amplitude) ∧
      ∃ x ∈ s, (x.natAbs : Int) = r.peak_amplitude := by
  obtain ⟨s, peak, hd, hfr, hp, hr⟩ := loadAnalyze_ok_elim f r h
  obtain ⟨hub, x0, hx0, hx0eq⟩ := npMaxAbs_spec s peak hp
  have hpk : r.peak_amplitude = peak := by rw [hr]
  obtain ⟨hs_len, hs_eq⟩ := decodeRaw_ok_elim _ _ _ _ hd
  have hx0range : -32768 ≤ x0 ∧ x0 ≤ 32767 := unpackLE16_mem f.raw x0 (hs_eq ▸ hx0)
  refine ⟨?_, ?_, s, hd, ?_, x0, hx0, ?_⟩
  · rw [hpk, ← hx0eq]
    exact Int.natCast_nonneg _
  · rw [hpk, ← hx0eq]
    omega
  · intro x hx
    rw [hpk]
    exact hub x hx
  · rw [hpk]
    exact hx0eq

/-- C1 witness: instantiation at the container holding the samples 32767
and 0, whose peak is 32767. -/
theorem C1_peak_is_max_abs_witness :
    0 ≤ peakFileResult.peak_amplitude ∧ peakFileResult.peak_amplitude ≤ 32768 ∧
    ∃ s, decodeRaw peakFile.nframes peakFile.nchannels peakFile.raw = .ok s ∧
      (∀ x ∈ s, (x.natAbs : Int) ≤ peakFileResult.peak_amplitude) ∧
      ∃ x ∈ s, (x.natAbs : Int) = peakFileResult.peak_amplitude :=
  C1_peak_is_max_abs peakFile peakFileResult (by
    norm_num [loadAnalyze, load_wav, decodeRaw, analyze, npMaxAbs, unpackLE16, toInt16,
      sumAbsQ, peakFile, peakFileResult, freshChecker, AnalysisResult.mk.injEq])

/-- C2, counterexample: a container declaring sample width 1 whose frame count
is zero satisfies the wave-module length invariant and loads without any
error, so a declared width other than 2 does not always make loading fail. -/
theorem C2_width1_counterexample :
    zeroFrameWidth1File.sampwidth ≠ 2 ∧
    zeroFrameWidth1File.raw.length =
      zeroFrameWidth1File.nframes * zeroFrameWidth1File.nchannels *
        zeroFrameWidth1File.sampwidth ∧
    (load_wav freshChecker zeroFrameWidth1File).isOk = true := by decide

/-- C2 (amended): a container declaring a sample width other than 2 whose
frame data is non-empty (nframes * nchannels > 0, raw length as the wave
module delivers it) fails during unpacking with a struct.error, i.e. the
DecodeError of the taxonomy, which is distinct from FormatError. -/
theorem C2_width_ne2_decode_error (f : WavFile) (c : Checker)
    (hw : f.raw.length = f.nframes * f.nchannels * f.sampwidth)
    (hsw : f.sampwidth ≠ 2) (hpos : 0 < f.nframes * f.nchannels) :
    load_wav c f = .error .decodeError ∧ Err.decodeError ≠ Err.formatError := by
  refine ⟨?_, by decide⟩
  have hne : f.raw.length ≠ 2 * (f.nframes * f.nchannels) := by
    rw [hw]
    intro hcon
    apply hsw
    refine Nat.eq_of_mul_eq_mul_left hpos ?_
    rw [← Nat.mul_comm f.sampwidth (f.nframes * f.nchannels)] at hcon
    rw [Nat.mul_comm f.sampwidth (f.nframes * f.nchannels)] at hcon
    rw [hcon, Nat.mul_comm]
  simp [load_wav, decodeRaw, hne]

/-- C2 witness: an 8-bit mono container with one frame (one raw byte) fails
with the unpacking error. -/
theorem C2_width_ne2_decode_error_witness :
    load_wav freshChecker oneFrameWidth1File = .error .decodeError ∧
    Err.decodeError ≠ Err.formatError :=
  C2_width_ne2_decode_error oneFrameWidth1File freshChecker (by decide) (by decide) (by decide)

/-- C3: a raw byte sequence whose length is not a multiple of 2 * nchannels
(sample width 2 being the only width the unpack format uses) always fails
with the DecodeError, and a successful decode consumes every byte - the
output is the full unpack and two bytes per output sample - so no silent
truncation is possible. -/
theorem C3_misaligned_raw_rejected (nframes nchannels : Nat) (raw : List Nat) :
    (¬ (2 * nchannels ∣ raw.length) → decodeRaw nframes nchannels raw = .error .decodeError) ∧
    (∀ s, decodeRaw nframes nchannels raw = .ok s →
      s = unpackLE16 raw ∧ 2 * s.length = raw.length) := by
  constructor
  · intro hnd
    unfold decodeRaw
    rw [if_neg]
    intro hlen
    exact hnd ⟨nframes, by rw [hlen]; ring⟩
  · intro s hs
    obtain ⟨hlen, hseq⟩ := decodeRaw_ok_elim _ _ _ _ hs
    refine ⟨hseq, ?_⟩
    rw [hseq, unpackLE16_length]
    omega

/-- C3 witness: three raw bytes with one channel are rejected. -/
theorem C3_misaligned_raw_rejected_witness :
    decodeRaw 1 1 [1, 2, 3] = .error .decodeError :=
  (C3_misaligned_raw_rejected 1 1 [1, 2, 3]).1 (by decide)

/-- C4, counterexample: when the transcoded container cannot be read
(wave.open or readframes raises), the MP3 branch exits with the temporary
file still present, refuting deletion on every exit path. -/
theorem C4_temp_leak_counterexample :
    mp3TempFlow true false true true = (Mp3Stage.readFailed, false) := by decide

/-- C4 (amended): the temporary file is removed exactly when the transcode
and the read succeed (and the removal itself succeeds); removal is thus
attempted after the container is fully read, covering the success path and
unpack failure, but not transcode or read failure; and a failed removal
never changes the exit stage (best-effort, non-fatal). -/
theorem C4_temp_removed_after_read (t r rm u : Bool) :
    ((mp3TempFlow t r rm u).2 = true ↔ t = true ∧ r = true ∧ rm = true) ∧
    (mp3TempFlow t r rm u).1 = (mp3TempFlow t r true u).1 := by
  cases t <;> cases r <;> cases rm <;> cases u <;> decide

/-- C5, counterexample: a mono container with framerate 44100 > 0 and zero
frames loads successfully, yet analyze raises the ValueError from np.max on
the empty signal instead of returning a duration. -/
theorem C5_empty_signal_counterexample :
    (load_wav freshChecker emptyMonoFile).isOk = true ∧
    emptyMonoFile.framerate = 44100 ∧
    loadAnalyze emptyMonoFile = .error .emptyReduction := by decide

/-- C5 (amended): for every well-formed container with at least one frame and
one channel, analyze succeeds when framerate > 0 and its duration_s equals
nframes / framerate exactly (as rationals), and fails with the
ZeroDivisionError (InvalidFormatError) when framerate = 0. -/
theorem C5_duration (f : WavFile)
    (hlen : f.raw.length = 2 * (f.nframes * f.nchannels))
    (hc : 0 < f.nchannels) (hn : 0 < f.nframes) :
    (0 < f.framerate →
      ∃ r, loadAnalyze f = .ok r ∧ r.duration_s = (f.nframes : ℚ) / (f.framerate : ℚ)) ∧
    (f.framerate = 0 → loadAnalyze f = .error .invalidFormat) := by
  have hd := decodeRaw_eq_ok f.nframes f.nchannels f.raw hlen
  have hprod : 0 < f.nframes * f.nchannels := Nat.mul_pos hn hc
  have hsne : unpackLE16 f.raw ≠ [] := by
    have hl := unpackLE16_length f.raw
    intro hnil
    rw [hnil] at hl
    simp only [List.length_nil] at hl
    omega
  constructor
  · intro hfr
    obtain ⟨peak, hp⟩ := npMaxAbs_ok_of_ne_nil _ hsne
    exact ⟨_, loadAnalyze_eq_ok f _ peak hd (by omega) hp, rfl⟩
  · intro hfr0
    simp [loadAnalyze, load_wav, hd, analyze, hfr0]

/-- C5 witness: the one-frame mono container at 8000 Hz has duration
1 / 8000. -/
theorem C5_duration_witness :
    ∃ r, loadAnalyze tinyFile = .ok r ∧
      r.duration_s = (tinyFile.nframes : ℚ) / (tinyFile.framerate : ℚ) :=
  (C5_duration tinyFile (by decide) (by decide) (by decide)).1 (by decide)

/-- C6: for every successful decode, byte pair (2i, 2i+1) is read as the one
little-endian signed 16-bit integer at flat index i; the reshape places flat
sample i at frame i / nchannels, channel i % nchannels; and the 8 bytes
a b c d e f g h with 2 channels decode to frame 0 = (le16 a b, le16 c d) and
frame 1 = (le16 e f, le16 g h). -/
theorem C6_deinterleave (nframes nchannels : Nat) (raw : List Nat) (s : List Int)
    (h : decodeRaw nframes nchannels raw = .ok s) :
    (∀ i lo hi, raw[2 * i]? = some lo → raw[2 * i + 1]? = some hi →
      s[i]? = some (toInt16 lo hi)) ∧
    (∀ i, sampleAt s nchannels (i / nchannels) (i % nchannels) = s[i]?) ∧
    (∀ b0 b1 b2 b3 b4 b5 b6 b7,
      raw = [b0, b1, b2, b3, b4, b5, b6, b7] → nchannels = 2 →
      frameOf s 2 0 = [toInt16 b0 b1, toInt16 b2 b3] ∧
      frameOf s 2 1 = [toInt16 b4 b5, toInt16 b6 b7]) := by
  obtain ⟨hlen, hseq⟩ := decodeRaw_ok_elim _ _ _ _ h
  subst hseq
  refine ⟨?_, ?_, ?_⟩
  · intro i lo hi h1 h2
    exact unpackLE16_get raw i lo hi h1 h2
  · intro i
    have hidx : i / nchannels * nchannels + i % nchannels = i := by
      rw [Nat.mul_comm]
      exact Nat.div_add_mod i nchannels
    unfold sampleAt
    rw [hidx]
  · intro b0 b1 b2 b3 b4 b5 b6 b7 hraw _
    subst hraw
    constructor <;> simp [unpackLE16, frameOf]

/-- C6 witness: the stereo container with bytes 1 0 2 0 3 0 4 0 decodes
to frame 0 = (1, 2) and frame 1 = (3, 4). -/
theorem C6_deinterleave_witness :
    frameOf (unpackLE16 stereoFile.raw) 2 0 = [toInt16 1 0, toInt16 2 0] ∧
    frameOf (unpackLE16 stereoFile.raw) 2 1 = [toInt16 3 0, toInt16 4 0] :=
  (C6_deinterleave stereoFile.nframes stereoFile.nchannels stereoFile.raw
      (unpackLE16 stereoFile.raw) rfl).2.2 1 0 2 0 3 0 4 0 rfl rfl

/-- C7: the constructor rejects every path whose lowercased splitext extension
is neither .wav nor .mp3 with the ValueError (UnsupportedFormatError); being a
pure function of the path string, it does this before any filesystem access. -/
theorem C7_bad_extension_rejected (p : String)
    (h1 : pathExtLower p ≠ ".wav".data) (h2 : pathExtLower p ≠ ".mp3".data) :
    init p = .error .unsupportedFormat := by
  unfold init
  rw [if_neg]
  rintro (h | h)
  · exact h1 h
  · exact h2 h

/-- C7 witness: a .flac path is rejected. -/
theorem C7_bad_extension_rejected_witness :
    init "song.flac" = .error .unsupportedFormat :=
  C7_bad_extension_rejected "song.flac" (by decide) (by decide)

/-- C8, counterexample: the empty stereo buffer is vacuously all-zero, loads
successfully, yet analyze fails with the ValueError from np.max instead of
returning mean_amplitude 0.0. -/
theorem C8_empty_mean_counterexample :
    (load_wav freshChecker emptyStereoFile).isOk = true ∧
    loadAnalyze emptyStereoFile = .error .emptyReduction := by decide

/-- C8 (amended): for every container that analyzes successfully with decoded
signal s, if all samples are zero the mean is exactly 0, and if exactly one
sample v is non-zero among the N = s.length samples the mean is |v| / N
exactly (as rationals). -/
theorem C8_mean_amplitude (f : WavFile) (r : AnalysisResult) (s : List Int)
    (hd : decodeRaw f.nframes f.nchannels f.raw = .ok s)
    (h : loadAnalyze f = .ok r) :
    ((∀ x ∈ s, x = 0) → r.mean_amplitude = 0) ∧
    (∀ s1 v s2, s = s1 ++ v :: s2 → (∀ x ∈ s1, x = 0) → (∀ x ∈ s2, x = 0) →
      r.mean_amplitude = (v.natAbs : ℚ) / (s.length : ℚ)) := by
  obtain ⟨s', peak, hd', hfr, hp, hr⟩ := loadAnalyze_ok_elim f r h
  have hss : s' = s := Except.ok.inj (hd'.symm.trans hd)
  subst hss
  have hmean : r.mean_amplitude = sumAbsQ s' / (s'.length : ℚ) := by rw [hr]
  constructor
  · intro hz
    rw [hmean, sumAbsQ_of_all_zero s' hz, zero_div]
  · intro s1 v s2 hdecomp hz1 hz2
    rw [hmean, hdecomp, sumAbsQ_append, sumAbsQ_cons,
      sumAbsQ_of_all_zero s1 hz1, sumAbsQ_of_all_zero s2 hz2]
    norm_num

/-- C8 witness: the container with samples 0 and 5 has mean |5| / 2. -/
theorem C8_mean_amplitude_witness :
    singleNonzeroResult.mean_amplitude =
      (((5 : Int).natAbs : ℚ) / ((([(0 : Int), 5]).length : ℚ))) :=
  (C8_mean_amplitude singleNonzeroFile singleNonzeroResult [0, 5] (by decide)
      (by norm_num [loadAnalyze, load_wav, decodeRaw, analyze, npMaxAbs, unpackLE16,
        toInt16, sumAbsQ, singleNonzeroFile, singleNonzeroResult, freshChecker,
        AnalysisResult.mk.injEq])).2
    [0] 5 [] rfl (by decide) (by decide)

/-- C9: while decoding has not completed the signal field is still None (the
constructor sets it to None and a failed load_wav leaves it unset), and any
such session raises the RuntimeError (NotLoadedError) from both analyze and
plot_waveform; once load_wav has completed successfully neither method can
fail with that error. -/
theorem C9_not_loaded_guard (c0 : Checker) (f : WavFile) (c1 : Checker) :
    (c0.signal = none →
      analyze c0 = .error .notLoaded ∧ plot_waveform c0 = .error .notLoaded) ∧
    (load_wav c0 f = .ok c1 →
      analyze c1 ≠ .error .notLoaded ∧ plot_waveform c1 ≠ .error .notLoaded) := by
  constructor
  · intro h
    rcases c0 with ⟨fp, pr, fr, sg⟩
    have hsg : sg = none := h
    subst hsg
    exact ⟨rfl, rfl⟩
  · intro h
    obtain ⟨s, _, hc⟩ := load_wav_ok_elim c0 f c1 h
    subst hc
    exact ⟨analyze_loaded_ne_notLoaded _ _ _ _, plot_loaded_ne_notLoaded _ _ _ _⟩

/-- C9 witness: the fresh checker fails both methods with the RuntimeError;
the checker loaded from the one-sample container fails neither with it. -/
theorem C9_not_loaded_guard_witness :
    (analyze freshChecker = .error .notLoaded ∧
      plot_waveform freshChecker = .error .notLoaded) ∧
    (analyze loadedTinyChecker ≠ .error .notLoaded ∧
      plot_waveform loadedTinyChecker ≠ .error .notLoaded) :=
  ⟨(C9_not_loaded_guard freshChecker tinyFile loadedTinyChecker).1 rfl,
   (C9_not_loaded_guard freshChecker tinyFile loadedTinyChecker).2 rfl⟩

/-- C10: the constructor lowercases the splitext extension before the check,
so a path is accepted exactly when its lowercased extension is .wav or .mp3,
rejected with the ValueError exactly otherwise; in particular upper- and
mixed-case variants of the two extensions are accepted. -/
theorem C10_extension_case_insensitive (p : String) :
    ((init p).isOk = true ↔
      (pathExtLower p = ".wav".data ∨ pathExtLower p = ".mp3".data)) ∧
    (init p = .error .unsupportedFormat ↔
      ¬ (pathExtLower p = ".wav".data ∨ pathExtLower p = ".mp3".data)) ∧
    (init "a.WAV").isOk = true ∧ (init "a.Wav").isOk = true ∧
    (init "a.MP3").isOk = true ∧ (init "a.wAv").isOk = true ∧
    (init "a.WAVE").isOk = false := by
  refine ⟨?_, ?_, by decide, by decide, by decide, by decide, by decide⟩
  · unfold init
    split <;> simp_all [Except.isOk, Except.toBool]
  · unfold init
    split <;> simp_all [Except.isOk, Except.toBool]

end AudioChecker
